import Mathlib

/-!
Shallow embedding of `app/main.py` (a FastAPI gateway around yt-dlp).

Modelling conventions:
* `time.time()` values are rationals (`ℚ`); each request is given one current
  time `now`, used for every `time.time()` call it performs.
* Python dicts used as mutable maps (`rate_hits_analyze`, `rate_hits_download`,
  `meta_cache`, `meta_cache_ttl`) are association lists `List (String × α)`
  threaded through the handler functions as explicit state.
* Python string operations (`strip`, `lower`, `split`, `startswith`) are
  re-implemented over `List Char` so that all definitions reduce in the kernel.
* Remote collaborators (the Turnstile verification POST and the yt-dlp
  extraction) are oracles supplied in an `Env` record: the handler models what
  the Python code does with whatever the collaborator produced.
* A value raised as `HTTPException(status, ...)` is modelled as `httpError
  status`; an exception that escapes the handler uncaught is `exn`
  (FastAPI turns it into a 500 response).
-/

/-- Python `str.strip()` (whitespace from both ends). -/
def pyStrip (s : String) : String :=
  String.mk (((s.data.dropWhile Char.isWhitespace).reverse.dropWhile Char.isWhitespace).reverse)

/-- Python `str.lower()` (ASCII case folding, which is all the code relies on). -/
def pyLower (s : String) : String :=
  String.mk (s.data.map Char.toLower)

/-- Python `str.startswith(p)`. -/
def py_startswith (s p : String) : Bool :=
  p.data.isPrefixOf s.data

/-- Split a character list at every occurrence of `c` (Python `str.split(sep)`
for a one-character separator: `"".split(",") = [""]`, empty pieces kept). -/
def splitOnChar (c : Char) : List Char → List (List Char)
  | [] => [[]]
  | x :: xs =>
    let r := splitOnChar c xs
    if x = c then [] :: r
    else
      match r with
      | [] => [[x]]
      | y :: ys => (x :: y) :: ys

/-- Occurrence of `pat` as a contiguous run inside `l` (helper for `py_in`). -/
def hasRun (pat : List Char) : List Char → Bool
  | [] => pat.isEmpty
  | x :: xs => pat.isPrefixOf (x :: xs) || hasRun pat xs

/-- Python `pat in s` (substring containment). -/
def py_in (pat s : String) : Bool :=
  hasRun pat.data s.data

/-- Python `s.split(",")`. -/
def pySplitComma (s : String) : List String :=
  (splitOnChar ',' s.data).map String.mk

/-- Association-list lookup for the dict-typed module state. -/
def lookupA {α : Type} : List (String × α) → String → Option α
  | [], _ => none
  | (k', v) :: rest, k => if k' = k then some v else lookupA rest k

/-- Association-list update `m[k] = v` (overwrites in place, appends if new). -/
def setA {α : Type} : List (String × α) → String → α → List (String × α)
  | [], k, v => [(k, v)]
  | (k', v') :: rest, k, v =>
    if k' = k then (k, v) :: rest else (k', v') :: setA rest k v

/-- Module constant `RATE_WINDOW_SEC = 1800` (seconds). -/
def RATE_WINDOW_SEC : ℚ := 1800

/-- Module constant `RATE_MAX_ANALYZE = 10`. -/
def RATE_MAX_ANALYZE : ℕ := 10

/-- Module constant `RATE_MAX_DL = 5`. -/
def RATE_MAX_DL : ℕ := 5

/-- Model of `client_ip`: first comma-separated entry of the `x-forwarded-for` header
(absent header modelled as `""`), stripped; the connecting socket host when
that entry is falsy. -/
def client_ip (xff : String) (host : String) : String :=
  let first := pyStrip ((pySplitComma xff).headD "")
  if first = "" then host else first

/-- Model of `rate_ok(bucket, ip, limit)` at current time `now`: prune the identity's
timestamp list to the trailing window, reject when the pruned count reaches
`limit`, otherwise record `now` and admit.  Returns (admitted?, new bucket);
the pruned (and possibly extended) list is written back on every path, as the
Python list assignment does.  `defaultdict(list)` semantics: a missing key
reads as `[]`. -/
def rate_ok (bucket : List (String × List ℚ)) (ip : String) (limit : ℕ)
    (now : ℚ) : Bool × List (String × List ℚ) :=
  let pruned := ((lookupA bucket ip).getD []).filter (fun t => now - t < RATE_WINDOW_SEC)
  if pruned.length ≥ limit then (false, setA bucket ip pruned)
  else (true, setA bucket ip (pruned ++ [now]))

/-- The finite language of the anchored regex
`^(https?://)?(www\.)?(youtube\.com|youtu\.be|music\.youtube\.com)/`:
a string matches (`re.search` with `^`, no MULTILINE, i.e. a match at the
start of the string) iff it starts with one of these 18 literals
(3 scheme options × 2 `www.` options × 3 hosts, each followed by `/`). -/
def allowedVideoUrlStarts : List String :=
  [ "youtube.com/", "youtu.be/", "music.youtube.com/",
    "www.youtube.com/", "www.youtu.be/", "www.music.youtube.com/",
    "http://youtube.com/", "http://youtu.be/", "http://music.youtube.com/",
    "http://www.youtube.com/", "http://www.youtu.be/", "http://www.music.youtube.com/",
    "https://youtube.com/", "https://youtu.be/", "https://music.youtube.com/",
    "https://www.youtube.com/", "https://www.youtu.be/", "https://www.music.youtube.com/" ]

/-- Search of `VIDEO_URL_ALLOWED` in `url`, as a boolean. -/
def VIDEO_URL_ALLOWED (url : String) : Bool :=
  allowedVideoUrlStarts.any (fun p => py_startswith url p)

/-- Model of `validate_url`: `true` when the allow-list regex matches; the Python
function raises `HTTPException(400)` exactly when this returns `false`
(callers below map `false` to `httpError 400`). -/
def validate_url (url : String) : Bool :=
  VIDEO_URL_ALLOWED url

/-- A JSON value, as produced by `response.json()`. -/
inductive JsonVal : Type
  | null
  | bool (b : Bool)
  | str (s : String)
  | num (n : ℚ)
  | arr (xs : List JsonVal)
  | obj (fields : List (String × JsonVal))

/-- Python truthiness (`bool(v)`) of a JSON value. -/
def pyTruthy : JsonVal → Bool
  | .null => false
  | .bool b => b
  | .str s => s ≠ ""
  | .num n => n ≠ 0
  | .arr xs => ¬ xs.isEmpty
  | .obj fs => ¬ fs.isEmpty

/-- Python `dict.get(k)` on a parsed JSON object: the value, or `None` when
the key is absent. -/
def pyDictGet (fields : List (String × JsonVal)) (k : String) : JsonVal :=
  match lookupA fields k with
  | some v => v
  | none => .null

/-- What the remote Turnstile endpoint does when called: returns a body that
parses as JSON, returns a body that is not JSON (`r.json()` raises), or the
outbound POST itself raises (network error / timeout). -/
inductive RemoteResponse : Type
  | json (v : JsonVal)
  | nonJson
  | netError

/-- Result of `verify_turnstile`: a returned boolean, or an exception escaping
the function (the Python code has no try/except around the POST or
`r.json()`). -/
inductive VerifyOutcome : Type
  | success (b : Bool)
  | error
deriving DecidableEq

/-- Model of `verify_turnstile(token, ip)` under secret `secret` when the remote behaves
as `remote`.  Returns (outcome, whether the outbound call was made).
With an empty secret it returns `True` immediately.  Otherwise:
a JSON-object body yields `bool(data.get("success"))` (Python truthiness of
the field, `None` when absent); a JSON body that is not an object makes
`data.get` raise `AttributeError`; a non-JSON body makes `r.json()` raise;
a failed POST raises — none of these is caught. -/
def verify_turnstile (secret : String) (token ip : String)
    (remote : RemoteResponse) : VerifyOutcome × Bool :=
  if secret = "" then (.success true, false)
  else
    match remote with
    | .netError => (.error, true)
    | .nonJson => (.error, true)
    | .json v =>
      match v with
      | .obj fields => (.success (pyTruthy (pyDictGet fields "success")), true)
      | _ => (.error, true)

/-- One entry of yt-dlp's `info["formats"]`.  A field holds `none` when the
key is absent (or its value is `None`; the claims below never depend on that
distinction, except for `info["formats"]` itself, modelled separately). -/
structure RawFormat : Type where
  format_id : Option String
  ext : Option String
  url : Option String
  vcodec : Option String
  acodec : Option String
  height : Option Int
  filesize : Option Int
  filesize_approx : Option Int
  fps : Option ℚ
  tbr : Option ℚ
  format_note : Option String
deriving DecidableEq

/-- The yt-dlp `info` dict as read by the handlers.  `formats` distinguishes
an absent key (`none`), a key bound to `None` (`some none`) and a key bound to
a list (`some (some l)`), because `analyze` and `download` read it
differently. -/
structure RawInfo : Type where
  id : Option String
  title : Option String
  thumbnail : Option String
  duration : Option Int
  uploader : Option String
  formats : Option (Option (List RawFormat))
deriving DecidableEq

/-- Python truthiness of `f.get("url")`: `None` and `""` are falsy. -/
def urlTruthy : Option String → Bool
  | none => false
  | some s => s ≠ ""

/-- Python `a or b` on `f.get("filesize") or f.get("filesize_approx")`
(`None` and `0` are falsy). -/
def pyOrInt (a b : Option Int) : Option Int :=
  match a with
  | none => b
  | some 0 => b
  | some n => some n

/-- One format dict of `/analyze`'s response body. -/
structure OutFormat : Type where
  format_id : Option String
  ext : Option String
  vcodec : Option String
  acodec : Option String
  height : Option Int
  filesize : Option Int
  fps : Option ℚ
  tbr : Option ℚ
  format_note : Option String
deriving DecidableEq

/-- The per-format dict built inside `extract_meta`'s loop. -/
def toOutFormat (f : RawFormat) : OutFormat :=
  { format_id := f.format_id
    ext := f.ext
    vcodec := f.vcodec
    acodec := f.acodec
    height := f.height
    filesize := pyOrInt f.filesize f.filesize_approx
    fps := f.fps
    tbr := f.tbr
    format_note := f.format_note }

/-- Value of `info.get("formats") or []` (used by `extract_meta`): absent key and
`None` both give `[]`. -/
def rawFormatsOrEmpty (info : RawInfo) : List RawFormat :=
  match info.formats with
  | some (some l) => l
  | _ => []

/-- The loop body of `extract_meta`: skip every format whose `url` is falsy,
keep the projected dict for the rest. -/
def extract_meta_formats (fs : List RawFormat) : List OutFormat :=
  fs.filterMap (fun f => if urlTruthy f.url then some (toOutFormat f) else none)

/-- The JSON payload `/analyze` returns and caches. -/
structure Meta : Type where
  id : Option String
  title : Option String
  thumbnail : Option String
  duration : Option Int
  uploader : Option String
  formats : List OutFormat
deriving DecidableEq

/-- Model of `extract_meta(url)`, applied to the `info` dict the extractor returned. -/
def extract_meta (info : RawInfo) : Meta :=
  { id := info.id
    title := info.title
    thumbnail := info.thumbnail
    duration := info.duration
    uploader := info.uploader
    formats := extract_meta_formats (rawFormatsOrEmpty info) }

/-- The cache read in `/analyze`: serve `meta_cache[key]` iff the key is
present and `time.time() < meta_cache_ttl.get(key, 0)`. -/
def cacheLookup (cache : List (String × Meta)) (ttl : List (String × ℚ))
    (key : String) (now : ℚ) : Option Meta :=
  match lookupA cache key with
  | none => none
  | some v => if now < (lookupA ttl key).getD 0 then some v else none

/-- The cache write in `/analyze`: `meta_cache[key] = data;
meta_cache_ttl[key] = time.time() + 600`. -/
def cacheStore (cache : List (String × Meta)) (ttl : List (String × ℚ))
    (key : String) (data : Meta) (now : ℚ) :
    List (String × Meta) × List (String × ℚ) :=
  (setA cache key data, setA ttl key (now + 600))

/-- The process-wide mutable module state: the two rate buckets and the two
cache dicts. -/
structure St : Type where
  bucketA : List (String × List ℚ)
  bucketD : List (String × List ℚ)
  cache : List (String × Meta)
  ttl : List (String × ℚ)
deriving DecidableEq

/-- Per-request environment: configuration and what each external collaborator
would produce if called during this request. -/
structure Env : Type where
  secret : String
  now : ℚ
  remote : RemoteResponse
  extraction : Except String RawInfo

/-- The parsed `/analyze` request.  `url` is `body.get("url") or ""` before
stripping; `captchaToken` is `""` when the field is absent or falsy. -/
structure AnalyzeReq : Type where
  url : String
  captchaToken : String
  userAgent : String
  xff : String
  host : String

/-- How `/analyze` terminates: a 200 JSON payload, a raised
`HTTPException(status)`, or an uncaught exception (FastAPI's generic 500). -/
inductive AnalyzeResult : Type
  | response (m : Meta)
  | httpError (status : ℕ)
  | exn
deriving DecidableEq

/-- Outcome of `/analyze`: the response, the module state afterwards, whether
the outbound verification POST was made, and whether yt-dlp extraction ran. -/
structure AnalyzeOutcome : Type where
  result : AnalyzeResult
  state : St
  verifyCalled : Bool
  extractCalled : Bool
deriving DecidableEq

/-- The `/analyze` handler, statement by statement from the source:
missing-parameter check (400), bot user-agent check (403), rate check (429),
Turnstile verification (403 on a returned `False`, exception propagation on a
verification exception), URL allow-list check (400), fresh-cache hit (served
without extraction), extraction (its failure wrapped into a 400), cache store,
JSON response. -/
def analyze (env : Env) (req : AnalyzeReq) (st : St) : AnalyzeOutcome :=
  let url := pyStrip req.url
  let captcha := req.captchaToken
  let ip := client_ip req.xff req.host
  let ua := req.userAgent
  if url = "" ∨ captcha = "" then ⟨.httpError 400, st, false, false⟩
  else if py_in "curl" (pyLower ua) = true then
    ⟨.httpError 403, st, false, false⟩
  else
    let r := rate_ok st.bucketA ip RATE_MAX_ANALYZE env.now
    let st1 : St := { st with bucketA := r.2 }
    if r.1 = false then ⟨.httpError 429, st1, false, false⟩
    else
      let v := verify_turnstile env.secret captcha ip env.remote
      match v.1 with
      | .error => ⟨.exn, st1, v.2, false⟩
      | .success ok =>
        if ok = false then ⟨.httpError 403, st1, v.2, false⟩
        else if validate_url url = false then ⟨.httpError 400, st1, v.2, false⟩
        else
          match cacheLookup st1.cache st1.ttl url env.now with
          | some m => ⟨.response m, st1, v.2, false⟩
          | none =>
            match env.extraction with
            | .error _ => ⟨.httpError 400, st1, v.2, true⟩
            | .ok info =>
              let data := extract_meta info
              let c := cacheStore st1.cache st1.ttl url data env.now
              ⟨.response data, { st1 with cache := c.1, ttl := c.2 }, v.2, true⟩

/-- The `/download` request: query parameters and the two headers the handler
reads (`csrf` is accepted and ignored by the source, so it is omitted). -/
structure DownloadReq : Type where
  url : String
  format_id : String
  referer : String
  xff : String
  host : String

/-- A started streaming response: the upstream media URL the proxy will GET
and the attachment filename sent in `Content-Disposition`. -/
structure DownloadStream : Type where
  srcUrl : String
  filename : String
deriving DecidableEq

/-- How `/download` terminates before streaming starts. -/
inductive DownloadResult : Type
  | stream (s : DownloadStream)
  | httpError (status : ℕ)
deriving DecidableEq

/-- Outcome of `/download`: response, state afterwards, whether yt-dlp ran. -/
structure DownloadOutcome : Type where
  result : DownloadResult
  state : St
  extractCalled : Bool
deriving DecidableEq

/-- Value of `info.get("formats", [])` followed by iteration, as `/download` does it:
an absent key iterates over `[]`; a key bound to `None` raises `TypeError`
inside the `try`, which the `except Exception` arm turns into a 400. -/
def downloadRawFormats (info : RawInfo) : Except Unit (List RawFormat) :=
  match info.formats with
  | none => .ok []
  | some none => .error ()
  | some (some l) => .ok l

/-- Model of `fmts = ...; fmts.get(format_id)` in `/download`:
the dict keeps, for each key, the last format with a truthy `url`; `get`
returns it.  Equivalently: the last list entry with a truthy `url` whose
`format_id` equals the requested one. -/
def resolveFormat (fs : List RawFormat) (fid : String) : Option RawFormat :=
  (fs.filter (fun f => urlTruthy f.url && (f.format_id == some fid))).getLast?

/-- The `/download` handler, statement by statement from the source:
referer check (403), rate check (429), URL allow-list check (400), empty
`format_id` check (400), extraction (failure → 400, `formats=None` → 400),
format lookup (miss → 404), then the streaming response with the synthesized
attachment filename.  `chosen["url"]` is guaranteed truthy by the resolver's
filter; the unreachable `none` arm mirrors the `except` fallback (400). -/
def download (appDomain : String) (env : Env) (req : DownloadReq) (st : St) :
    DownloadOutcome :=
  let ip := client_ip req.xff req.host
  if py_startswith req.referer appDomain = false then ⟨.httpError 403, st, false⟩
  else
    let r := rate_ok st.bucketD ip RATE_MAX_DL env.now
    let st1 : St := { st with bucketD := r.2 }
    if r.1 = false then ⟨.httpError 429, st1, false⟩
    else if validate_url req.url = false then ⟨.httpError 400, st1, false⟩
    else if req.format_id = "" then ⟨.httpError 400, st1, false⟩
    else
      match env.extraction with
      | .error _ => ⟨.httpError 400, st1, true⟩
      | .ok info =>
        match downloadRawFormats info with
        | .error _ => ⟨.httpError 400, st1, true⟩
        | .ok fs =>
          match resolveFormat fs req.format_id with
          | none => ⟨.httpError 404, st1, true⟩
          | some chosen =>
            match chosen.url with
            | none => ⟨.httpError 400, st1, true⟩
            | some srcUrl =>
              let filename :=
                "canal-yt-" ++ info.id.getD "video" ++ "-" ++ req.format_id
                  ++ "." ++ chosen.ext.getD "mp4"
              ⟨.stream ⟨srcUrl, filename⟩, st1, true⟩

/-! ## Concrete scenarios used by the witness and counterexample theorems -/

/-- Request for the C1 counterexample scenarios. -/
def reqC1 : AnalyzeReq :=
  ⟨"https://www.youtube.com/watch?v=x", "tok", "Mozilla/5.0", "", "1.2.3.4"⟩

/-- Extraction result used for the C1 scenarios. -/
def infoC1 : RawInfo := ⟨some "vid", some "t", none, some 10, none, some (some [])⟩

/-- Environment with a configured secret whose remote verification answer is
JSON with the non-boolean truthy success value `"yes"`. -/
def envC1yes : Env :=
  ⟨"s3cr3t", 0, .json (.obj [("success", .str "yes")]), .ok infoC1⟩

/-- Environment with a configured secret whose remote verification call fails
with a network error. -/
def envC1net : Env := ⟨"s3cr3t", 0, .netError, .ok infoC1⟩

/-- Empty starting state for the C1 counterexample scenarios. -/
def stC1 : St := ⟨[], [], [], []⟩

/-- Request for the C1 amended witness. -/
def reqC1w : AnalyzeReq :=
  ⟨"https://www.youtube.com/watch?v=x", "tok", "Mozilla/5.0", "", "1.2.3.4"⟩

/-- Environment for the C1 amended witness: secret configured, network error. -/
def envC1w : Env := ⟨"s", 0, .netError, .ok infoC1⟩

/-- Empty starting state for the C1 amended witness. -/
def stC1w : St := ⟨[], [], [], []⟩

/-- Concrete metadata value for the C3 witness. -/
def metaC3 : Meta := ⟨some "vid", some "t", none, some 10, none, []⟩

/-- Request for the C3 witness (passes every check before the cache read). -/
def reqC3 : AnalyzeReq :=
  ⟨"https://www.youtube.com/watch?v=x", "tok", "Mozilla/5.0", "", "1.2.3.4"⟩

/-- Environment for the C3 witness: no secret (dev mode), time 0. -/
def envC3 : Env := ⟨"", 0, .nonJson, .ok ⟨none, none, none, none, none, none⟩⟩

/-- Empty starting state for the C3 witness. -/
def stC3 : St := ⟨[], [], [], []⟩

/-- Request for the C4 rejection part: the embedded-host URL, with every
check before URL validation passing. -/
def reqC4 : AnalyzeReq :=
  ⟨"https://evil.com/youtube.com", "tok", "Mozilla/5.0", "", "1.2.3.4"⟩

/-- Environment for the C4 rejection part; extraction would succeed if it
were (wrongly) reached. -/
def envC4 : Env := ⟨"", 0, .nonJson, .ok ⟨none, none, none, none, none, none⟩⟩

/-- Empty starting state for the C4 rejection part. -/
def stC4 : St := ⟨[], [], [], []⟩

/-- A format with no source URL (identifier "22"), for the C5 witness. -/
def fmtNoUrlC5 : RawFormat :=
  ⟨some "22", some "mp4", none, some "avc1", some "mp4a", some 720,
    none, some 1000, some 30, some 900, some "720p"⟩

/-- A format with a source URL (identifier "18"), for the C5 witness. -/
def fmtUrlC5 : RawFormat :=
  ⟨some "18", some "mp4", some "https://cdn.example/v.mp4", some "avc1",
    some "mp4a", some 360, some 500, none, some 30, some 400, some "360p"⟩

/-- Extractor output holding both C5 formats. -/
def infoC5 : RawInfo :=
  ⟨some "vid", some "t", none, some 10, none, some (some [fmtNoUrlC5, fmtUrlC5])⟩

/-- Download request asking for the URL-less format "22". -/
def reqC5 : DownloadReq :=
  ⟨"https://www.youtube.com/watch?v=x", "22", "https://d.end.yt/", "", "1.2.3.4"⟩

/-- Environment for the C5 witness. -/
def envC5 : Env := ⟨"", 0, .nonJson, .ok infoC5⟩

/-- Empty starting state for the C5 witness. -/
def stC5 : St := ⟨[], [], [], []⟩

/-- Concrete request for C6 (mixed-case "cURL" user agent). -/
def reqC6 : AnalyzeReq :=
  ⟨"https://www.youtube.com/watch?v=x", "tok", "cURL/8.1", "", "1.2.3.4"⟩

/-- Environment for the C6 witness. -/
def envC6 : Env := ⟨"s", 0, .nonJson, .error "boom"⟩

/-- Nonempty starting state for the C6 witness: the rejection leaves it as is. -/
def stC6 : St := ⟨[("1.2.3.4", [0])], [], [], []⟩

/-- Concrete request for C7: referer from a foreign site. -/
def reqC7 : DownloadReq :=
  ⟨"https://www.youtube.com/watch?v=x", "18", "https://evil.example/page", "", "1.2.3.4"⟩

/-- Environment for the C7 witness. -/
def envC7 : Env := ⟨"s", 0, .nonJson, .ok ⟨none, none, none, none, none, none⟩⟩

/-- Starting state for the C7 witness. -/
def stC7 : St := ⟨[], [("1.2.3.4", [0])], [], []⟩

/-- Request for the C10 rejection part: a bare allowed host with no path. -/
def reqC10 : AnalyzeReq :=
  ⟨"https://www.youtube.com", "tok", "Mozilla/5.0", "", "1.2.3.4"⟩

/-- Environment for the C10 rejection part. -/
def envC10 : Env := ⟨"", 0, .nonJson, .ok ⟨none, none, none, none, none, none⟩⟩

/-- Empty starting state for the C10 rejection part. -/
def stC10 : St := ⟨[], [], [], []⟩

/-! ## Helper lemmas -/

/-- Updating a dict then reading the same key returns the written value. -/
theorem lookupA_setA_self {α : Type} (m : List (String × α)) (k : String) (v : α) :
    lookupA (setA m k v) k = some v := by
  induction m with
  | nil => simp [setA, lookupA]
  | cons hd tl ih =>
    obtain ⟨k', v'⟩ := hd
    by_cases h : k' = k
    · simp [setA, h, lookupA]
    · simp [setA, h, lookupA, ih]

/-- The last element of a list is a member. -/
theorem mem_of_getLast?_eq_some {α : Type} {l : List α} {a : α}
    (h : l.getLast? = some a) : a ∈ l := by
  have hm : a ∈ l.getLast? := h
  obtain ⟨hne, rfl⟩ := List.mem_getLast?_eq_getLast hm
  exact List.getLast_mem hne

/-! ## C1 (corrected) -/

/-- C1 counterexample: the claim is false of the code on two counts.  A JSON
verification response whose `success` field is the non-boolean string `"yes"`
makes `verify_turnstile` return `True`, and the `/analyze` request then
succeeds with a 200 payload instead of being rejected with 403; and a network
error in the outbound call is not turned into a 403 — the exception escapes
the handler uncaught (FastAPI's generic 500), because nothing catches it. -/
theorem verify_error_handling_counterexample :
    (verify_turnstile "s3cr3t" "tok" "1.2.3.4"
      (.json (.obj [("success", .str "yes")]))).1 = .success true
    ∧ (analyze envC1yes reqC1 stC1).result = .response (extract_meta infoC1)
    ∧ (analyze envC1net reqC1 stC1).result = .exn := by
  refine ⟨rfl, by decide, by decide⟩

/-- C1 as amended: with a configured secret, a JSON-object verification
response yields `success` exactly on the Python truthiness of its `success`
field (absent means `None`, hence failure, and `/analyze` answers 403 on a
returned `False`), while a non-JSON body or a network/timeout failure raises —
the exception escapes `verify_turnstile` and `/analyze` uncaught, so the
verification error is never treated as success, but the caller sees the
generic server error, not a 403. -/
theorem verify_error_handling_amended (secret token ip : String) (hs : secret ≠ "") :
    ((verify_turnstile secret token ip .netError).1 = .error)
    ∧ ((verify_turnstile secret token ip .nonJson).1 = .error)
    ∧ (∀ fields, (verify_turnstile secret token ip (.json (.obj fields))).1
        = .success (pyTruthy (pyDictGet fields "success")))
    ∧ (∀ (env : Env) (req : AnalyzeReq) (st : St),
        pyStrip req.url ≠ "" → req.captchaToken ≠ "" →
        py_in "curl" (pyLower req.userAgent) = false →
        (rate_ok st.bucketA (client_ip req.xff req.host) RATE_MAX_ANALYZE env.now).1 = true →
        ((verify_turnstile env.secret req.captchaToken (client_ip req.xff req.host)
            env.remote).1 = .error →
          (analyze env req st).result = .exn)
        ∧ ((verify_turnstile env.secret req.captchaToken (client_ip req.xff req.host)
            env.remote).1 = .success false →
          (analyze env req st).result = .httpError 403)) := by
  refine ⟨by simp [verify_turnstile, hs], by simp [verify_turnstile, hs],
    fun fields => by simp [verify_turnstile, hs], ?_⟩
  intro env req st hu hc hcurl hrate
  constructor <;> intro hv <;>
    · simp only [analyze]
      rw [if_neg (by simp [hu, hc]), if_neg (by simp [hcurl]),
        if_neg (by simp [hrate]), hv]
      try simp

/-- Witness for the amended C1: at a concrete secret, the network-error case
yields the error outcome, and a concrete `/analyze` run with that remote
behavior ends in the uncaught-exception result. -/
theorem verify_error_handling_amended_witness :
    (verify_turnstile "s" "tok" "1.2.3.4" .netError).1 = .error
    ∧ (analyze envC1w reqC1w stC1w).result = .exn :=
  ⟨(verify_error_handling_amended "s" "tok" "1.2.3.4" (by decide)).1,
   ((verify_error_handling_amended "s" "tok" "1.2.3.4" (by decide)).2.2.2 envC1w
      reqC1w stC1w (by decide) (by decide) (by decide) (by decide)).1 (by decide)⟩

/-! ## C2 -/

/-- C2: one `rate_ok` call first prunes the identity's timestamp list to those
within the trailing 1800-second window; if at least `limit` remain it returns
`false` and writes back only the pruned list (nothing appended); otherwise it
writes back the pruned list with the current time appended and returns `true`.
The pruning write-back happens on both paths. -/
theorem rate_ok_prune_then_record (bucket : List (String × List ℚ)) (ip : String)
    (limit : ℕ) (now : ℚ) :
    ((rate_ok bucket ip limit now).1 = true ↔
      (((lookupA bucket ip).getD []).filter
        (fun t => now - t < RATE_WINDOW_SEC)).length < limit)
    ∧ lookupA (rate_ok bucket ip limit now).2 ip =
        some (if (((lookupA bucket ip).getD []).filter
                (fun t => now - t < RATE_WINDOW_SEC)).length ≥ limit
          then ((lookupA bucket ip).getD []).filter
                (fun t => now - t < RATE_WINDOW_SEC)
          else (((lookupA bucket ip).getD []).filter
                (fun t => now - t < RATE_WINDOW_SEC)) ++ [now]) := by
  by_cases h : (((lookupA bucket ip).getD []).filter
      (fun t => now - t < RATE_WINDOW_SEC)).length ≥ limit
  · constructor
    · simp [rate_ok, h]
      try omega
    · simp [rate_ok, h, lookupA_setA_self]
  · constructor
    · simp [rate_ok, h]
      try omega
    · simp [rate_ok, h, lookupA_setA_self]

/-- Witness for C2 at a concrete bucket: at time 1801 with window 1800, the
stale timestamp 0 is pruned, the fresh timestamp 2 is kept, the call admits
and appends 1801. -/
theorem rate_ok_prune_then_record_witness :
    (rate_ok [("1.2.3.4", [0, 2])] "1.2.3.4" 10 1801).1 = true
    ∧ lookupA (rate_ok [("1.2.3.4", [0, 2])] "1.2.3.4" 10 1801).2 "1.2.3.4"
        = some [2, 1801] :=
  ⟨(rate_ok_prune_then_record [("1.2.3.4", [0, 2])] "1.2.3.4" 10 1801).1.mpr
      (by norm_num [lookupA, RATE_WINDOW_SEC]),
   ((rate_ok_prune_then_record [("1.2.3.4", [0, 2])] "1.2.3.4" 10 1801).2).trans
      (by norm_num [lookupA, RATE_WINDOW_SEC])⟩

/-! ## C3 -/

/-- C3: a cache entry stored for a URL at time `T` is served verbatim by the
`/analyze` cache read at every time strictly before `T + 600` and never at or
after `T + 600`; moreover, whenever the request passes all the preceding
checks, `/analyze` runs extraction exactly when the cache read misses. -/
theorem cache_entry_ttl (cache : List (String × Meta)) (ttl : List (String × ℚ))
    (key : String) (data : Meta) (T R : ℚ) :
    (R < T + 600 →
      cacheLookup (cacheStore cache ttl key data T).1
        (cacheStore cache ttl key data T).2 key R = some data)
    ∧ (T + 600 ≤ R →
      cacheLookup (cacheStore cache ttl key data T).1
        (cacheStore cache ttl key data T).2 key R = none)
    ∧ (∀ (env : Env) (req : AnalyzeReq) (st : St),
        pyStrip req.url ≠ "" → req.captchaToken ≠ "" →
        py_in "curl" (pyLower req.userAgent) = false →
        (rate_ok st.bucketA (client_ip req.xff req.host) RATE_MAX_ANALYZE env.now).1 = true →
        (verify_turnstile env.secret req.captchaToken (client_ip req.xff req.host)
          env.remote).1 = .success true →
        validate_url (pyStrip req.url) = true →
        (analyze env req st).extractCalled
          = (cacheLookup st.cache st.ttl (pyStrip req.url) env.now).isNone) := by
  refine ⟨?_, ?_, ?_⟩
  · intro h
    simp only [cacheLookup, cacheStore, lookupA_setA_self, Option.getD_some]
    rw [if_pos h]
  · intro h
    simp only [cacheLookup, cacheStore, lookupA_setA_self, Option.getD_some]
    rw [if_neg (not_lt.mpr h)]
  · intro env req st hu hc hcurl hrate hv hval
    simp only [analyze]
    rw [if_neg (by simp [hu, hc]), if_neg (by simp [hcurl]),
      if_neg (by simp [hrate]), hv]
    simp only []
    rw [if_neg (by simp), if_neg (by simp [hval])]
    cases hcl : cacheLookup st.cache st.ttl (pyStrip req.url) env.now with
    | some m => simp
    | none =>
      cases hext : env.extraction with
      | error e => simp
      | ok info => simp

/-- Witness for C3: an entry stored at time 0 is served at 599 and gone at
600, and an `/analyze` request over an empty cache reaches extraction. -/
theorem cache_entry_ttl_witness :
    cacheLookup (cacheStore [] [] "u" metaC3 0).1 (cacheStore [] [] "u" metaC3 0).2
      "u" 599 = some metaC3
    ∧ cacheLookup (cacheStore [] [] "u" metaC3 0).1 (cacheStore [] [] "u" metaC3 0).2
      "u" 600 = none
    ∧ (analyze envC3 reqC3 stC3).extractCalled
      = (cacheLookup stC3.cache stC3.ttl (pyStrip reqC3.url) envC3.now).isNone :=
  ⟨(cache_entry_ttl [] [] "u" metaC3 0 599).1 (by norm_num),
   (cache_entry_ttl [] [] "u" metaC3 0 600).2.1 (by norm_num),
   (cache_entry_ttl [] [] "u" metaC3 0 0).2.2 envC3 reqC3 stC3 (by decide) (by decide)
     (by decide) (by decide) (by decide) (by decide)⟩

/-! ## C4 -/

/-- C4: the allow-list accepts the three sample URLs with the scheme and the
`www.` prefix added or removed in every combination, and rejects
`https://evil.com/youtube.com`; on that rejection `/analyze` answers 400 and
never reaches extraction. -/
theorem validate_url_allowlist :
    validate_url "https://www.youtube.com/watch?v=x" = true
    ∧ validate_url "http://www.youtube.com/watch?v=x" = true
    ∧ validate_url "https://youtube.com/watch?v=x" = true
    ∧ validate_url "www.youtube.com/watch?v=x" = true
    ∧ validate_url "youtube.com/watch?v=x" = true
    ∧ validate_url "http://youtu.be/x" = true
    ∧ validate_url "https://youtu.be/x" = true
    ∧ validate_url "http://www.youtu.be/x" = true
    ∧ validate_url "www.youtu.be/x" = true
    ∧ validate_url "youtu.be/x" = true
    ∧ validate_url "music.youtube.com/watch?v=x" = true
    ∧ validate_url "https://music.youtube.com/watch?v=x" = true
    ∧ validate_url "www.music.youtube.com/watch?v=x" = true
    ∧ validate_url "https://www.music.youtube.com/watch?v=x" = true
    ∧ validate_url "https://evil.com/youtube.com" = false
    ∧ (analyze envC4 reqC4 stC4).result = .httpError 400
    ∧ (analyze envC4 reqC4 stC4).extractCalled = false := by
  decide

/-! ## C5 -/

/-- C5: `extract_meta` keeps exactly the formats with a resolvable (truthy)
source URL, so every format in `/analyze`'s response stems from such a format;
`/download`'s resolver only ever yields formats with a truthy URL and the
requested identifier; and when the resolver finds nothing for the requested
identifier, `/download` answers 404 (after all earlier checks passed). -/
theorem formats_without_url_excluded :
    (∀ fs : List RawFormat,
      extract_meta_formats fs
        = (fs.filter (fun f => urlTruthy f.url)).map toOutFormat)
    ∧ (∀ (info : RawInfo) (g : OutFormat), g ∈ (extract_meta info).formats →
      ∃ f, f ∈ rawFormatsOrEmpty info ∧ urlTruthy f.url = true ∧ g = toOutFormat f)
    ∧ (∀ (fs : List RawFormat) (fid : String) (f : RawFormat),
      resolveFormat fs fid = some f → urlTruthy f.url = true ∧ f.format_id = some fid)
    ∧ (∀ (appDomain : String) (env : Env) (req : DownloadReq) (st : St)
        (info : RawInfo) (fs : List RawFormat),
      py_startswith req.referer appDomain = true →
      (rate_ok st.bucketD (client_ip req.xff req.host) RATE_MAX_DL env.now).1 = true →
      validate_url req.url = true →
      req.format_id ≠ "" →
      env.extraction = .ok info →
      downloadRawFormats info = .ok fs →
      resolveFormat fs req.format_id = none →
      (download appDomain env req st).result = .httpError 404
        ∧ (download appDomain env req st).extractCalled = true) := by
  have hfm : ∀ fs : List RawFormat,
      extract_meta_formats fs
        = (fs.filter (fun f => urlTruthy f.url)).map toOutFormat := by
    intro fs
    induction fs with
    | nil => rfl
    | cons f t ih =>
      by_cases h : urlTruthy f.url
      · simp [extract_meta_formats, List.filterMap_cons, List.filter_cons, h] at ih ⊢
        exact ih
      · simp [extract_meta_formats, List.filterMap_cons, List.filter_cons, h] at ih ⊢
        exact ih
  refine ⟨hfm, ?_, ?_, ?_⟩
  · intro info g hg
    rw [show (extract_meta info).formats = extract_meta_formats (rawFormatsOrEmpty info) from rfl,
      hfm] at hg
    obtain ⟨f, hf, rfl⟩ := List.mem_map.mp hg
    obtain ⟨hfmem, hftr⟩ := List.mem_filter.mp hf
    exact ⟨f, hfmem, hftr, rfl⟩
  · intro fs fid f h
    have hf : f ∈ fs.filter (fun f => urlTruthy f.url && (f.format_id == some fid)) :=
      mem_of_getLast?_eq_some h
    obtain ⟨-, hp⟩ := List.mem_filter.mp hf
    obtain ⟨h1, h2⟩ := (Bool.and_eq_true _ _).mp hp
    exact ⟨h1, by simpa using h2⟩
  · intro appDomain env req st info fs href hrate hval hfid hext hfs hres
    simp only [download]
    rw [if_neg (by simp [href]), if_neg (by simp [hrate]),
      if_neg (by simp [hval]), if_neg (by simp [hfid]), hext]
    simp only []
    rw [hfs]
    simp only []
    rw [hres]
    exact ⟨rfl, rfl⟩

/-- Witness for C5: the URL-less format "22" is dropped from the `/analyze`
format list, the resolver answers positively only for the URL-bearing "18",
and `/download` for "22" returns 404. -/
theorem formats_without_url_excluded_witness :
    extract_meta_formats [fmtNoUrlC5, fmtUrlC5]
      = ([fmtNoUrlC5, fmtUrlC5].filter (fun f => urlTruthy f.url)).map toOutFormat
    ∧ (urlTruthy fmtUrlC5.url = true ∧ fmtUrlC5.format_id = some "18")
    ∧ ((download "https://d.end.yt" envC5 reqC5 stC5).result = .httpError 404
        ∧ (download "https://d.end.yt" envC5 reqC5 stC5).extractCalled = true) :=
  ⟨formats_without_url_excluded.1 [fmtNoUrlC5, fmtUrlC5],
   formats_without_url_excluded.2.2.1 [fmtNoUrlC5, fmtUrlC5] "18" fmtUrlC5 (by decide),
   formats_without_url_excluded.2.2.2 "https://d.end.yt" envC5 reqC5 stC5 infoC5
     [fmtNoUrlC5, fmtUrlC5] (by decide) (by decide) (by decide) (by decide) rfl rfl
     (by decide)⟩

/-! ## C6 -/

/-- C6: an `/analyze` request with both parameters present whose user agent
contains "curl" in any letter case is rejected with 403 before the rate check:
the whole module state (both rate buckets included) is unchanged, and neither
the verification call nor extraction happens. -/
theorem analyze_curl_rejected_before_rate (env : Env) (req : AnalyzeReq) (st : St)
    (hu : pyStrip req.url ≠ "") (hc : req.captchaToken ≠ "")
    (hcurl : py_in "curl" (pyLower req.userAgent) = true) :
    analyze env req st = ⟨.httpError 403, st, false, false⟩ := by
  simp only [analyze]
  rw [if_neg (by simp [hu, hc]), if_pos (by simp [hcurl])]

/-- Witness for C6: the mixed-case curl agent is turned away with 403 and the
state (hence both rate buckets) is untouched. -/
theorem analyze_curl_rejected_before_rate_witness :
    analyze envC6 reqC6 stC6 = ⟨.httpError 403, stC6, false, false⟩ :=
  analyze_curl_rejected_before_rate envC6 reqC6 stC6 (by decide) (by decide) (by decide)

/-! ## C7 -/

/-- C7: a `/download` request whose referer does not start with the configured
application origin is rejected with 403: the state is unchanged (no rate
timestamp is recorded) and extraction is not invoked. -/
theorem download_bad_referer_rejected (appDomain : String) (env : Env)
    (req : DownloadReq) (st : St)
    (h : py_startswith req.referer appDomain = false) :
    download appDomain env req st = ⟨.httpError 403, st, false⟩ := by
  simp only [download]
  rw [if_pos (by simp [h])]

/-- Witness for C7 at the configured origin of the source (`https://d.end.yt`). -/
theorem download_bad_referer_rejected_witness :
    download "https://d.end.yt" envC7 reqC7 stC7 = ⟨.httpError 403, stC7, false⟩ :=
  download_bad_referer_rejected "https://d.end.yt" envC7 reqC7 stC7 (by decide)

/-! ## C8 -/

/-- C8: with no verification secret configured (empty string), `verify_turnstile`
returns `True` for every token and identity, and makes no outbound call. -/
theorem verify_turnstile_no_secret (token ip : String) (remote : RemoteResponse) :
    verify_turnstile "" token ip remote = (.success true, false) := rfl

/-! ## C9 -/

/-- C9: the rate-limit identity is the first comma-separated entry of the
`X-Forwarded-For` header, stripped, whenever that entry is non-empty; only
when it is empty (or the header absent, modelled as `xff = ""`) does it fall
back to the connecting socket host.  The identity is thus caller-controllable
through the header. -/
theorem client_ip_first_xff_entry (xff host : String) :
    (pyStrip ((pySplitComma xff).headD "") ≠ "" →
      client_ip xff host = pyStrip ((pySplitComma xff).headD ""))
    ∧ (pyStrip ((pySplitComma xff).headD "") = "" →
      client_ip xff host = host) := by
  constructor <;> intro h
  · simp only [client_ip]
    rw [if_neg h]
  · simp only [client_ip]
    rw [if_pos h]

/-- Witness for C9 at concrete headers: a caller-supplied entry wins, and an
absent header falls back to the socket host. -/
theorem client_ip_first_xff_entry_witness :
    client_ip " 1.2.3.4 ,5.6.7.8" "9.9.9.9" = "1.2.3.4"
    ∧ client_ip "" "9.9.9.9" = "9.9.9.9" :=
  ⟨((client_ip_first_xff_entry " 1.2.3.4 ,5.6.7.8" "9.9.9.9").1 (by decide)).trans (by decide),
   (client_ip_first_xff_entry "" "9.9.9.9").2 (by decide)⟩

/-! ## C10 -/

/-- C10: every accepted URL extends one of the allowed starts, each of which
ends in `/` — so an allowed host not followed by `/` is rejected; in
particular every bare allowed host (no path) fails validation, and `/analyze`
on `https://www.youtube.com` answers 400 without attempting extraction. -/
theorem validate_url_bare_host_rejected :
    (∀ url, VIDEO_URL_ALLOWED url = true →
      ∃ p, p ∈ allowedVideoUrlStarts ∧ py_startswith url p = true)
    ∧ (∀ p ∈ allowedVideoUrlStarts, p.data.getLast? = some '/')
    ∧ validate_url "https://www.youtube.com" = false
    ∧ validate_url "http://www.youtube.com" = false
    ∧ validate_url "https://youtube.com" = false
    ∧ validate_url "www.youtube.com" = false
    ∧ validate_url "youtube.com" = false
    ∧ validate_url "youtu.be" = false
    ∧ validate_url "www.youtu.be" = false
    ∧ validate_url "music.youtube.com" = false
    ∧ (analyze envC10 reqC10 stC10).result = .httpError 400
    ∧ (analyze envC10 reqC10 stC10).extractCalled = false := by
  refine ⟨?_, by decide, by decide, by decide, by decide, by decide, by decide,
    by decide, by decide, by decide, by decide, by decide⟩
  intro url h
  simpa [VIDEO_URL_ALLOWED, List.any_eq_true] using h

/-- Witness for C10: instantiating the universal part at an accepted URL. -/
theorem validate_url_bare_host_rejected_witness :
    ∃ p, p ∈ allowedVideoUrlStarts
      ∧ py_startswith "https://www.youtube.com/watch?v=x" p = true :=
  validate_url_bare_host_rejected.1 "https://www.youtube.com/watch?v=x" (by decide)
